import Mathlib

/-!
Verification of the NCBI sequence retrieval script `s26604_2025.py`.

The script is a sequential pipeline: taxonomy search, batched fetch of
GenBank records, length filtering, CSV table output and a PNG chart.
External collaborators (the Entrez network service, the SeqIO GenBank
parser, the csv writer and matplotlib) are modelled as parameters or as
explicit effect traces; the functions of the script itself are embedded
faithfully below.
-/

namespace S26604

/-- A record as produced by the external GenBank parser `SeqIO.parse`:
identifier (`record.id`), sequence (`record.seq`) and free-text
description (`record.description`). -/
structure ParsedRecord where
  id : String
  seq : List Char
  description : String
deriving Repr, DecidableEq

/-- A Record Summary: the dictionary appended by
`filter_and_parse_sequences` with keys accession, length, description. -/
structure RecordSummary where
  accession : String
  length : Nat
  description : String
deriving Repr, DecidableEq

/-- The `for record in SeqIO.parse(...)` loop body of
`filter_and_parse_sequences`: keep a record exactly when
`min_len <= seq_len <= max_len`, appending in parse order. -/
def filter_loop (min_len max_len : Int) : List ParsedRecord → List RecordSummary
  | [] => []
  | record :: rest =>
    let seq_len : Int := record.seq.length
    if min_len ≤ seq_len ∧ seq_len ≤ max_len then
      { accession := record.id, length := record.seq.length,
        description := record.description } :: filter_loop min_len max_len rest
    else
      filter_loop min_len max_len rest

/-- Embedding of `filter_and_parse_sequences(gb_text, min_len, max_len)`.
The GenBank text parser is the external collaborator `SeqIO.parse`,
abstracted as the function argument `parse`; the filtering loop is the
code of the script. -/
def filter_and_parse_sequences (parse : String → List ParsedRecord)
    (gb_text : String) (min_len max_len : Int) : List RecordSummary :=
  filter_loop min_len max_len (parse gb_text)

/-- The search session stored on the retriever instance by a successful
`search_taxid` call: the fields `self.webenv` and `self.query_key`. -/
structure Session where
  webenv : String
  query_key : String
deriving Repr, DecidableEq

/-- The keyword arguments of the `Entrez.efetch` call issued by
`fetch_records`. -/
structure FetchRequest where
  db : String
  rettype : String
  retmode : String
  retstart : Int
  retmax : Int
  webenv : String
  query_key : String
deriving Repr, DecidableEq

/-- The Python value returned by `fetch_records`: either a list (the
literal `[]` of the no-session branch) or a string (the fetched text, or
`""` on a fetch error). The two constructors model the two distinct
Python runtime types. -/
inductive FetchResult where
  | asList (l : List String)
  | asText (s : String)
deriving Repr, DecidableEq

/-- One execution of `fetch_records`: its return value, the `efetch`
requests actually sent to the service, and the messages printed. -/
structure FetchRun where
  result : FetchResult
  requests : List FetchRequest
  msgs : List String
deriving Repr, DecidableEq

/-- The request `fetch_records` sends: `batch_size = min(max_records, 500)`
and the keyword arguments of its `Entrez.efetch` call. The session
argument models `self.webenv` / `self.query_key`; `efetch` in
`fetch_records` models the external `Entrez.efetch` call together with
`handle.read()`, returning either text or an exception message. -/
def fetch_request (s : Session) (start max_records : Int) : FetchRequest :=
  let batch_size : Int := min max_records 500
  { db := "nucleotide", rettype := "gb", retmode := "text",
    retstart := start, retmax := batch_size,
    webenv := s.webenv, query_key := s.query_key }

/-- Embedding of the body of `NCBIRetriever.fetch_records`: the
no-session guard, then the single `Entrez.efetch` call wrapped in
try/except. -/
def fetch_records (session : Option Session)
    (efetch : FetchRequest → Except String String)
    (start max_records : Int) : FetchRun :=
  match session with
  | none =>
    { result := FetchResult.asList [], requests := [],
      msgs := ["No search results to fetch. Run search_taxid() first."] }
  | some s =>
    let req : FetchRequest := fetch_request s start max_records
    match efetch req with
    | Except.ok records_text =>
      { result := FetchResult.asText records_text, requests := [req], msgs := [] }
    | Except.error e =>
      { result := FetchResult.asText "", requests := [req],
        msgs := ["Error fetching records: " ++ e] }

/-- Embedding of `save_csv(data, filename)` as the rows written to the
file: the loop `for row in data: writer.writerow(row)` after
`writer.writeheader()`. `csv.DictWriter` with fieldnames
accession, length, description writes the three values in that order,
the integer rendered in decimal. -/
def save_csv_rows : List RecordSummary → List (List String)
  | [] => []
  | row :: rest =>
    [row.accession, toString row.length, row.description] :: save_csv_rows rest

/-- The full contents written by `save_csv`: header row then data rows. -/
def save_csv (data : List RecordSummary) : List (List String) :=
  ["accession", "length", "description"] :: save_csv_rows data

/-- The list `data_sorted = sorted(data, key=lambda x: x["length"],
reverse=True)` computed by `plot_data`. Python `sorted` is a stable
sort; with `reverse=True` it is embedded as a stable merge sort under
the relation `plot_le`: a comes before b when the length of b is at
most the length of a. -/
def plot_le (a b : RecordSummary) : Bool :=
  decide (b.length ≤ a.length)

/-- The stable sort `data_sorted` computed by `plot_data`. -/
def plot_data_sorted (data : List RecordSummary) : List RecordSummary :=
  data.mergeSort plot_le

/-- The statements of `plot_data`, in source order. -/
inductive PlotStep where
  | figureStep
  | plotCall
  | xticksStep
  | xlabelStep
  | ylabelStep
  | titleStep
  | tightLayoutStep
  | savefigStep
  | printStep
  | closeStep
deriving Repr, DecidableEq

/-- One execution of `plot_data`: the data series handed to matplotlib,
the statements that actually ran, and the exception that escaped, if
any. -/
structure PlotRun where
  xvalues : List String
  yvalues : List Nat
  steps : List PlotStep
  error : Option String
deriving Repr, DecidableEq

/-- Embedding of `plot_data(data, filename)`. `savefigResult` models the
external `plt.savefig` call: `none` means it succeeds, `some e` means it
raises `e`. The function body has no try/finally, so when `plt.savefig`
raises, the following `print` and `plt.close()` statements do not run
and the exception propagates. -/
def plot_data (data : List RecordSummary) (savefigResult : Option String) : PlotRun :=
  let data_sorted := plot_data_sorted data
  let accessions := data_sorted.map (fun d => d.accession)
  let lengths := data_sorted.map (fun d => d.length)
  let prelude : List PlotStep :=
    [PlotStep.figureStep, PlotStep.plotCall, PlotStep.xticksStep,
     PlotStep.xlabelStep, PlotStep.ylabelStep, PlotStep.titleStep,
     PlotStep.tightLayoutStep, PlotStep.savefigStep]
  match savefigResult with
  | some e =>
    { xvalues := accessions, yvalues := lengths,
      steps := prelude, error := some e }
  | none =>
    { xvalues := accessions, yvalues := lengths,
      steps := prelude ++ [PlotStep.printStep, PlotStep.closeStep],
      error := none }

/-- Value of a decimal digit character, `none` on any other character. -/
def digit_val (c : Char) : Option Nat :=
  if c.isDigit then some (c.toNat - 48) else none

/-- Accumulate decimal digits; `none` when a non-digit appears or when
no digit was seen at all. -/
def parse_digits : List Char → Option Nat → Option Nat
  | [], acc => acc
  | c :: cs, acc =>
    match digit_val c, acc with
    | some d, some n => parse_digits cs (some (10 * n + d))
    | some d, none => parse_digits cs (some d)
    | none, _ => none

/-- Embedding of the Python built-in `int(str)` conversion used for the
length bounds: an optional sign followed by decimal digits; `none`
models the `ValueError` raised on non-numeric input. -/
def py_int (s : String) : Option Int :=
  match s.data with
  | '-' :: rest => (parse_digits rest none).map (fun n => -(n : Int))
  | '+' :: rest => (parse_digits rest none).map (fun n => (n : Int))
  | l => (parse_digits l none).map (fun n => (n : Int))

/-- Python truthiness of the value `main` receives from
`retriever.search_taxid`: `None` and `0` are falsy, any other count is
truthy (`if not count`). -/
def py_truthy : Option Nat → Bool
  | none => false
  | some n => !(n == 0)

/-- The filename `f"taxid_{taxid}_filtered.csv"`. -/
def file_csv (taxid : String) : String :=
  "taxid_" ++ taxid ++ "_filtered.csv"

/-- The filename `f"taxid_{taxid}_chart.png"`. -/
def file_chart (taxid : String) : String :=
  "taxid_" ++ taxid ++ "_chart.png"

/-- Outcome of one run of `main`: a normal return (exit code 0) with the
files written, the messages printed and the network calls issued, or an
uncaught exception (with the network calls issued before it). -/
inductive MainResult where
  | ok (files : List String) (msgs : List String) (calls : List String)
  | fatal (err : String) (calls : List String)
deriving Repr, DecidableEq

/-- Files written by a run of `main`. -/
def files_of : MainResult → List String
  | MainResult.ok files _ _ => files
  | MainResult.fatal _ _ => []

/-- True exactly when the run of `main` returned normally (the process
exits with code 0). -/
def exits_ok : MainResult → Bool
  | MainResult.ok _ _ _ => true
  | MainResult.fatal _ _ => false

/-- Messages printed by a run of `main` after the search step. -/
def msgs_of : MainResult → List String
  | MainResult.ok _ msgs _ => msgs
  | MainResult.fatal _ _ => []

/-- Network calls issued during a run of `main`. -/
def net_calls : MainResult → List String
  | MainResult.ok _ _ calls => calls
  | MainResult.fatal _ calls => calls

/-- The string read by `filter_and_parse_sequences` from the value
`fetch_records` returned. With a valid session the result is always
`asText`; the `asList` branch is unreachable in the flow of `main`. -/
def text_of : FetchResult → String
  | FetchResult.asText t => t
  | FetchResult.asList _ => ""

/-- Embedding of `main` from the `count = retriever.search_taxid(taxid)`
line on, after the two integer conversions succeeded. `search_count`
is the value `search_taxid` returned and `sess` the session it stored;
`efetch` and `parse` are the external collaborators of the later
steps. The two network calls inside `search_taxid` precede the check. -/
def main_after_input (taxid : String) (min_len max_len : Int)
    (search_count : Option Nat) (sess : Session)
    (efetch : FetchRequest → Except String String)
    (parse : String → List ParsedRecord) : MainResult :=
  let calls0 := ["efetch-taxonomy", "esearch"]
  if py_truthy search_count = false then
    MainResult.ok [] ["No records found. Exiting."] calls0
  else
    let fetched := fetch_records (some sess) efetch 0 100
    let calls1 := calls0 ++ ["efetch-nucleotide"]
    let all_records_text := text_of fetched.result
    let filtered_data :=
      filter_and_parse_sequences parse all_records_text min_len max_len
    if filtered_data = [] then
      MainResult.ok [] ["No sequences matched the length filter."] calls1
    else
      MainResult.ok [file_csv taxid, file_chart taxid]
        ["CSV saved to " ++ file_csv taxid,
         "Chart saved to " ++ file_chart taxid, "Task complete!"] calls1

/-- Embedding of `main` from the input prompts on: the five prompt
answers arrive as strings, the two length bounds go through `int(...)`
before the retriever is constructed and before any network call. -/
def main (email api_key taxid min_str max_str : String)
    (search_count : Option Nat) (sess : Session)
    (efetch : FetchRequest → Except String String)
    (parse : String → List ParsedRecord) : MainResult :=
  match py_int min_str with
  | none => MainResult.fatal "ValueError: invalid literal for int() with base 10" []
  | some min_len =>
    match py_int max_str with
    | none => MainResult.fatal "ValueError: invalid literal for int() with base 10" []
    | some max_len =>
      let _ := email
      let _ := api_key
      main_after_input taxid min_len max_len search_count sess efetch parse

/-- The filtered sequence `main` computes after a successful search:
parse and filter the text fetched with the stored session. -/
def filtered_of (parse : String → List ParsedRecord) (sess : Session)
    (efetch : FetchRequest → Except String String)
    (min_len max_len : Int) : List RecordSummary :=
  filter_and_parse_sequences parse
    (text_of (fetch_records (some sess) efetch 0 100).result) min_len max_len

/-- Every record kept by the filtering loop satisfies the bound. -/
theorem filter_loop_bounds (min_len max_len : Int) (l : List ParsedRecord)
    (r : RecordSummary) (h : r ∈ filter_loop min_len max_len l) :
    min_len ≤ (r.length : Int) ∧ (r.length : Int) ≤ max_len := by
  induction l with
  | nil => simp [filter_loop] at h
  | cons x xs ih =>
    simp only [filter_loop] at h
    split at h
    · rcases List.mem_cons.mp h with hr | hr
      · subst hr
        assumption
      · exact ih hr
    · exact ih h

/-- C1: every record in the sequence returned by
`filter_and_parse_sequences(gb_text, min_len, max_len)` has a length
field with `min_len <= length <= max_len`, for every input text, every
behaviour of the external parser and every pair of integer bounds. -/
theorem filter_and_parse_sequences_bounds
    (parse : String → List ParsedRecord) (gb_text : String)
    (min_len max_len : Int) (r : RecordSummary)
    (h : r ∈ filter_and_parse_sequences parse gb_text min_len max_len) :
    min_len ≤ (r.length : Int) ∧ (r.length : Int) ≤ max_len :=
  filter_loop_bounds min_len max_len (parse gb_text) r h

/-- Witness for C1 at a concrete parser, text and bounds. -/
theorem filter_and_parse_sequences_bounds_witness :
    (1 : Int) ≤ (({ accession := "AB1", length := 2, description := "d" } : RecordSummary).length : Int) ∧
    ((({ accession := "AB1", length := 2, description := "d" } : RecordSummary).length : Int) ≤ 3) :=
  filter_and_parse_sequences_bounds
    (fun _ => [{ id := "AB1", seq := ['A', 'C'], description := "d" }]) "text" 1 3
    { accession := "AB1", length := 2, description := "d" } (by decide)

/-- With an inverted bound the filtering loop keeps nothing. -/
theorem filter_loop_inverted (min_len max_len : Int) (h : max_len < min_len)
    (l : List ParsedRecord) : filter_loop min_len max_len l = [] := by
  induction l with
  | nil => rfl
  | cons x xs ih =>
    simp only [filter_loop]
    rw [if_neg, ih]
    rintro ⟨h1, h2⟩
    exact absurd (le_trans h1 h2) (not_le.mpr h)

/-- C10: for every input text and every pair of bounds with
`min_len > max_len`, `filter_and_parse_sequences` returns the empty
sequence (it is a total function of its inputs; no error is raised). -/
theorem filter_and_parse_sequences_inverted
    (parse : String → List ParsedRecord) (gb_text : String)
    (min_len max_len : Int) (h : max_len < min_len) :
    filter_and_parse_sequences parse gb_text min_len max_len = [] :=
  filter_loop_inverted min_len max_len h (parse gb_text)

/-- Witness for C10 at a concrete parser, text and inverted bounds. -/
theorem filter_and_parse_sequences_inverted_witness :
    filter_and_parse_sequences
      (fun _ => [{ id := "AB1", seq := ['A', 'C'], description := "d" }])
      "text" 5 2 = [] :=
  filter_and_parse_sequences_inverted
    (fun _ => [{ id := "AB1", seq := ['A', 'C'], description := "d" }])
    "text" 5 2 (by decide)

/-- With a session present, exactly one request is sent, the one built
by `fetch_request`. -/
theorem fetch_records_requests_eq (s : Session)
    (efetch : FetchRequest → Except String String) (start max_records : Int) :
    (fetch_records (some s) efetch start max_records).requests =
      [fetch_request s start max_records] := by
  cases h : efetch (fetch_request s start max_records) <;>
    simp [fetch_records, h]

/-- C3: for every call of `fetch_records(start, max_records)`, every
batch request sent to the service has `retmax = min(max_records, 500)`;
in particular with `max_records = 9999` the effective batch size is
500. -/
theorem fetch_records_batch_cap (session : Option Session)
    (efetch : FetchRequest → Except String String) (start max_records : Int)
    (req : FetchRequest)
    (h : req ∈ (fetch_records session efetch start max_records).requests) :
    req.retmax = min max_records 500 ∧ (max_records = 9999 → req.retmax = 500) := by
  cases session with
  | none => simp [fetch_records] at h
  | some s =>
    rw [fetch_records_requests_eq, List.mem_singleton] at h
    subst h
    refine ⟨rfl, fun h9 => ?_⟩
    subst h9
    rfl

/-- Witness for C3: a concrete call with `max_records = 9999` whose
request has `retmax = 500`. -/
theorem fetch_records_batch_cap_witness :
    (fetch_request { webenv := "w", query_key := "k" } 0 9999).retmax = min 9999 500 ∧
    ((9999 : Int) = 9999 → (fetch_request { webenv := "w", query_key := "k" } 0 9999).retmax = 500) :=
  fetch_records_batch_cap (some { webenv := "w", query_key := "k" })
    (fun _ => Except.ok "") 0 9999
    (fetch_request { webenv := "w", query_key := "k" } 0 9999)
    (by rw [fetch_records_requests_eq]; exact List.mem_singleton.mpr rfl)

/-- C6: calling `fetch_records` with no prior search session returns the
empty list immediately: no request is sent to the service, no exception
is raised (the embedding is a total function), and the only signal is
the printed message. -/
theorem fetch_records_no_session
    (efetch : FetchRequest → Except String String) (start max_records : Int) :
    fetch_records none efetch start max_records =
      { result := FetchResult.asList [], requests := [],
        msgs := ["No search results to fetch. Run search_taxid() first."] } :=
  rfl

/-- C9: the two failure results of `fetch_records` have different
types: with no session it returns the empty list, with a session whose
fetch errors it returns the empty string, and a successful fetch
returns the fetched text as a string. -/
theorem fetch_records_result_types (s : Session)
    (efetch : FetchRequest → Except String String) (start max_records : Int) :
    (fetch_records none efetch start max_records).result = FetchResult.asList [] ∧
    (∀ e, efetch (fetch_request s start max_records) = Except.error e →
      (fetch_records (some s) efetch start max_records).result = FetchResult.asText "") ∧
    (∀ t, efetch (fetch_request s start max_records) = Except.ok t →
      (fetch_records (some s) efetch start max_records).result = FetchResult.asText t) := by
  refine ⟨rfl, fun e he => ?_, fun t ht => ?_⟩
  · simp [fetch_records, he]
  · simp [fetch_records, ht]

/-- Witness for C9 at a concrete session: an erroring fetch yields the
empty string, a successful fetch yields its text. -/
theorem fetch_records_result_types_witness :
    (fetch_records (some { webenv := "w", query_key := "k" })
      (fun _ => Except.error "boom") 0 100).result = FetchResult.asText "" ∧
    (fetch_records (some { webenv := "w", query_key := "k" })
      (fun _ => Except.ok "LOCUS") 0 100).result = FetchResult.asText "LOCUS" :=
  ⟨(fetch_records_result_types { webenv := "w", query_key := "k" }
      (fun _ => Except.error "boom") 0 100).2.1 "boom" rfl,
   (fetch_records_result_types { webenv := "w", query_key := "k" }
      (fun _ => Except.ok "LOCUS") 0 100).2.2 "LOCUS" rfl⟩

/-- C4: `save_csv` writes exactly one header row with the column names
accession, length, description, followed by one data row per record
reproducing the fields of that record, in the order of the input
sequence. -/
theorem save_csv_spec (data : List RecordSummary) :
    save_csv data = ["accession", "length", "description"] ::
      data.map (fun r => [r.accession, toString r.length, r.description]) := by
  unfold save_csv
  congr 1
  induction data with
  | nil => rfl
  | cons r rest ih => simp [save_csv_rows, ih]

/-- The comparison of `plot_data_sorted` is transitive. -/
theorem plot_le_trans (a b c : RecordSummary) :
    plot_le a b = true → plot_le b c = true → plot_le a c = true := by
  simp only [plot_le, decide_eq_true_eq]
  omega

/-- The comparison of `plot_data_sorted` is total. -/
theorem plot_le_total (a b : RecordSummary) :
    (plot_le a b || plot_le b a) = true := by
  simp only [plot_le, Bool.or_eq_true, decide_eq_true_eq]
  omega

/-- C5: the sequence `plot_data` derives for charting is a permutation
of its input (same multiset of records), ordered by length descending,
and stable: for each length value, the records of that length appear in
their original relative order. -/
theorem plot_data_sorted_spec (data : List RecordSummary) :
    (plot_data_sorted data).Perm data ∧
    (plot_data_sorted data).Pairwise (fun a b => b.length ≤ a.length) ∧
    ∀ n, (plot_data_sorted data).filter (fun r => r.length == n) =
      data.filter (fun r => r.length == n) := by
  refine ⟨List.mergeSort_perm data plot_le, ?_, ?_⟩
  · have h := List.sorted_mergeSort plot_le_trans plot_le_total data
    exact h.imp (fun hab => of_decide_eq_true hab)
  · intro n
    have hperm : ((plot_data_sorted data).filter (fun r => r.length == n)).Perm
        (data.filter (fun r => r.length == n)) :=
      List.Perm.filter _ (List.mergeSort_perm data plot_le)
    have hpair : (data.filter (fun r => r.length == n)).Pairwise
        (fun a b => plot_le a b = true) := by
      apply List.pairwise_of_forall_mem_list
      intro a ha b hb
      have ha2 := List.of_mem_filter ha
      have hb2 := List.of_mem_filter hb
      simp only [beq_iff_eq] at ha2 hb2
      simp [plot_le, ha2, hb2]
    have hsub : (data.filter (fun r => r.length == n)).Sublist (plot_data_sorted data) :=
      List.sublist_mergeSort plot_le_trans plot_le_total hpair (List.filter_sublist data)
    have hself : (data.filter (fun r => r.length == n)).filter (fun r => r.length == n) =
        data.filter (fun r => r.length == n) :=
      List.filter_eq_self.mpr
        (fun a ha =>
          List.of_mem_filter (p := fun r : RecordSummary => r.length == n) ha)
    have hsub2 : (data.filter (fun r => r.length == n)).Sublist
        ((plot_data_sorted data).filter (fun r => r.length == n)) :=
      hself ▸ List.Sublist.filter (fun r => r.length == n) hsub
    exact (List.Sublist.eq_of_length hsub2 hperm.length_eq.symm).symm

/-- C7 counterexample: when `plt.savefig` raises, the `plt.close()`
statement of `plot_data` does not run, so the plotting context is not
released on that execution and the error propagates. -/
theorem plot_data_close_counterexample :
    PlotStep.closeStep ∉
      (plot_data [{ accession := "AB1", length := 5, description := "d" }]
        (some "disk full")).steps ∧
    (plot_data [{ accession := "AB1", length := 5, description := "d" }]
      (some "disk full")).error = some "disk full" := by
  constructor
  · decide
  · rfl

/-- C7 amended: `plot_data` closes the plotting context on every
successful execution; when writing the image fails, the error
propagates to the caller and the context is not closed (the function
body has no try/finally). -/
theorem plot_data_close_amended (data : List RecordSummary) (e : String) :
    ((plot_data data none).error = none ∧
      PlotStep.closeStep ∈ (plot_data data none).steps) ∧
    ((plot_data data (some e)).error = some e ∧
      PlotStep.closeStep ∉ (plot_data data (some e)).steps) := by
  refine ⟨⟨rfl, ?_⟩, rfl, ?_⟩
  · simp [plot_data]
  · simp [plot_data]

/-- C2: `main` writes the table and chart files exactly when the search
count is truthy and the filtered sequence is non-empty; when the search
yields no count (none or zero) or the filtered sequence is empty, it
prints a message and returns normally without writing either file. -/
theorem main_after_input_files (taxid : String) (min_len max_len : Int)
    (search_count : Option Nat) (sess : Session)
    (efetch : FetchRequest → Except String String)
    (parse : String → List ParsedRecord) :
    (files_of (main_after_input taxid min_len max_len search_count sess efetch parse) =
        [file_csv taxid, file_chart taxid] ↔
      (py_truthy search_count = true ∧
        filtered_of parse sess efetch min_len max_len ≠ [])) ∧
    (py_truthy search_count = false →
      main_after_input taxid min_len max_len search_count sess efetch parse =
        MainResult.ok [] ["No records found. Exiting."]
          ["efetch-taxonomy", "esearch"]) ∧
    (py_truthy search_count = true →
      filtered_of parse sess efetch min_len max_len = [] →
      main_after_input taxid min_len max_len search_count sess efetch parse =
        MainResult.ok [] ["No sequences matched the length filter."]
          ["efetch-taxonomy", "esearch", "efetch-nucleotide"]) := by
  unfold main_after_input
  by_cases hc : py_truthy search_count = false
  · simp [hc, files_of]
  · rw [Bool.not_eq_false] at hc
    by_cases hf : filtered_of parse sess efetch min_len max_len = []
    · unfold filtered_of at hf
      simp [hc, hf, files_of, filtered_of]
    · unfold filtered_of at hf
      simp [hc, hf, files_of, filtered_of]

/-- Witness for C2: a falsy search count and an empty filtered sequence
each end the run normally with no files written. -/
theorem main_after_input_files_witness :
    main_after_input "9606" 1 10 none { webenv := "w", query_key := "k" }
      (fun _ => Except.ok "") (fun _ => []) =
      MainResult.ok [] ["No records found. Exiting."]
        ["efetch-taxonomy", "esearch"] ∧
    main_after_input "9606" 1 10 (some 3) { webenv := "w", query_key := "k" }
      (fun _ => Except.ok "") (fun _ => []) =
      MainResult.ok [] ["No sequences matched the length filter."]
        ["efetch-taxonomy", "esearch", "efetch-nucleotide"] :=
  ⟨(main_after_input_files "9606" 1 10 none { webenv := "w", query_key := "k" }
      (fun _ => Except.ok "") (fun _ => [])).2.1 rfl,
   (main_after_input_files "9606" 1 10 (some 3) { webenv := "w", query_key := "k" }
      (fun _ => Except.ok "") (fun _ => [])).2.2 rfl rfl⟩

/-- C8: when the minimum-length or maximum-length input is non-numeric,
the integer conversion in `main` raises, the process terminates with an
uncaught exception, and no network call has been made. -/
theorem main_nonnumeric_fatal (email api_key taxid min_str max_str : String)
    (search_count : Option Nat) (sess : Session)
    (efetch : FetchRequest → Except String String)
    (parse : String → List ParsedRecord)
    (h : py_int min_str = none ∨ py_int max_str = none) :
    exits_ok (main email api_key taxid min_str max_str search_count sess efetch parse) =
      false ∧
    net_calls (main email api_key taxid min_str max_str search_count sess efetch parse) =
      [] := by
  unfold main
  rcases h with h | h
  · rw [h]
    exact ⟨rfl, rfl⟩
  · cases hm : py_int min_str with
    | none => exact ⟨rfl, rfl⟩
    | some v =>
      rw [h]
      exact ⟨rfl, rfl⟩

/-- Witness for C8 with the non-numeric minimum-length input "abc". -/
theorem main_nonnumeric_fatal_witness :
    exits_ok (main "a@b.c" "key" "9606" "abc" "10" none
      { webenv := "w", query_key := "k" }
      (fun _ => Except.ok "") (fun _ => [])) = false ∧
    net_calls (main "a@b.c" "key" "9606" "abc" "10" none
      { webenv := "w", query_key := "k" }
      (fun _ => Except.ok "") (fun _ => [])) = [] :=
  main_nonnumeric_fatal "a@b.c" "key" "9606" "abc" "10" none
    { webenv := "w", query_key := "k" }
    (fun _ => Except.ok "") (fun _ => []) (Or.inl (by decide))

end S26604
